import Mathlib

/-!
Verification of the sovos memory-bootstrap core against its specification.

The development shallowly embeds the four source files of the repository:
`src/libs/elf/src/definitions.rs` (ELF64 structures and field decoding),
`src/libs/cpu/src/macros.rs` (the page-table entry construct/read-back
operations generated by `impl_pagelevel`), and
`src/libs/bootinfo/src/lib.rs` (the `Bootinfo` control block, the
`map_kernel` mapper and the `page_fault_jump_trick` trampoline).
Machine integers are modelled as `Nat` with explicit bounds where they
matter; fallible decoding returns `Option`.
-/

namespace Elf

/-- ELF64 `e_ident` block, mirroring `HeaderIdent` in
`src/libs/elf/src/definitions.rs` (all byte fields as `Nat`). -/
structure HeaderIdent where
  ei_magic : List Nat
  ei_class : Nat
  ei_data : Nat
  ei_version : Nat
  ei_osabi : Nat
  ei_abiversion : Nat
  ei_pad : List Nat
deriving Repr, DecidableEq

/-- The `Machine` classification enum of `definitions.rs`. -/
inductive Machine
  | None
  | PowerPC
  | Power64
  | Arm
  | X86
  | X64
  | AArch64
  | AmdGpu
  | RiscV
deriving Repr, DecidableEq

/-- ELF64 header, mirroring `Header` in `definitions.rs`.  The Rust
struct stores `e_entry`, `e_phoff` and `e_shoff` as `Option<NonZeroU64>`
and is reinterpreted from on-disk bytes (`unsafe impl Pod`): the
guaranteed niche layout of `Option<NonZeroU64>` makes the on-disk bit
pattern 0 decode to `None` and any nonzero `v` to `Some(v)`.  Here the
three fields hold the decoded `Option Nat`. -/
structure Header where
  e_ident : HeaderIdent
  e_type : Nat
  e_machine : Nat
  e_version : Nat
  e_entry : Option Nat
  e_phoff : Option Nat
  e_shoff : Option Nat
  e_flags : Nat
  e_ehsize : Nat
  e_phentsize : Nat
  e_phnum : Nat
  e_shentsize : Nat
  e_shnum : Nat
  e_shstrndx : Nat
deriving Repr, DecidableEq

/-- Decoding of one on-disk 64-bit word into an `Option<NonZeroU64>`
field of `Header` (used for `e_entry`, `e_phoff`, `e_shoff`): the Rust
layout guarantee maps bit pattern 0 to `None` and nonzero `v` to
`Some(v)`. -/
def decodeOptionNonZeroU64 (v : Nat) : Option Nat :=
  if v = 0 then none else some v

/-- Decoding of the three "zero means absent" address fields of the
ELF64 header from their raw on-disk 64-bit values. -/
def decodeAddressFields (e_entry_raw e_phoff_raw e_shoff_raw : Nat) :
    Option Nat × Option Nat × Option Nat :=
  (decodeOptionNonZeroU64 e_entry_raw,
   decodeOptionNonZeroU64 e_phoff_raw,
   decodeOptionNonZeroU64 e_shoff_raw)

/-- `Header::machine` from `definitions.rs`: decode `e_machine` into a
`Machine` classification, `none` for unrecognized values. -/
def Header.machine (h : Header) : Option Machine :=
  if h.e_machine = 0 then some .None
  else if h.e_machine = 20 then some .PowerPC
  else if h.e_machine = 21 then some .Power64
  else if h.e_machine = 40 then some .Arm
  else if h.e_machine = 3 then some .X86
  else if h.e_machine = 62 then some .X64
  else if h.e_machine = 183 then some .AArch64
  else if h.e_machine = 224 then some .AmdGpu
  else if h.e_machine = 243 then some .RiscV
  else none

/-- ELF64 program header, mirroring `ProgramHeader` in
`definitions.rs` (all fields as raw `Nat` words). -/
structure ProgramHeader where
  p_type : Nat
  p_flags : Nat
  p_offset : Nat
  p_vaddr : Nat
  p_paddr : Nat
  p_filesz : Nat
  p_memsz : Nat
  p_align : Nat
deriving Repr, DecidableEq

/-- `ProgramHeader::is_executable`: `(self.p_flags >> 0) & 1 == 1`. -/
def ProgramHeader.is_executable (p : ProgramHeader) : Bool :=
  (p.p_flags >>> 0) &&& 1 == 1

/-- `ProgramHeader::is_writable`: `(self.p_flags >> 1) & 1 == 1`. -/
def ProgramHeader.is_writable (p : ProgramHeader) : Bool :=
  (p.p_flags >>> 1) &&& 1 == 1

/-- `ProgramHeader::is_readable`: `(self.p_flags >> 2) & 1 == 1`. -/
def ProgramHeader.is_readable (p : ProgramHeader) : Bool :=
  (p.p_flags >>> 2) &&& 1 == 1

/-- `ProgramHeader::os_specific_flags`: `(self.p_flags >> 20) as u8`
(the `as u8` cast truncates to the low 8 bits). -/
def ProgramHeader.os_specific_flags (p : ProgramHeader) : Nat :=
  (p.p_flags >>> 20) % 2 ^ 8

/-- `ProgramHeader::cpu_specific_flags`: `(self.p_flags >> 28) as u8`
(the `as u8` cast truncates to the low 8 bits). -/
def ProgramHeader.cpu_specific_flags (p : ProgramHeader) : Nat :=
  (p.p_flags >>> 28) % 2 ^ 8

/-- The `SegmentType` classification enum of `definitions.rs`; the
`OsSpecific` and `CpuSpecific` constructors carry the raw tag. -/
inductive SegmentType
  | Null
  | Load
  | Dynamic
  | Interpreter
  | Note
  | SharedLib
  | ProgramHeader
  | ThreadLocalStorage
  | OsSpecific (x : Nat)
  | CpuSpecific (x : Nat)
deriving Repr, DecidableEq

/-- `SegmentType::from_integer` from `definitions.rs`: classify a raw
32-bit program-header type tag, with the ranges
`0x60000000..=0x6fffffff` and `0x70000000..=0x7fffffff` mapped to
`OsSpecific` and `CpuSpecific` carrying the raw value. -/
def SegmentType.from_integer (x : Nat) : Option SegmentType :=
  if x = 0 then some .Null
  else if x = 1 then some .Load
  else if x = 2 then some .Dynamic
  else if x = 3 then some .Interpreter
  else if x = 4 then some .Note
  else if x = 5 then some .SharedLib
  else if x = 6 then some .ProgramHeader
  else if x = 7 then some .ThreadLocalStorage
  else if 0x60000000 ≤ x ∧ x ≤ 0x6fffffff then some (.OsSpecific x)
  else if 0x70000000 ≤ x ∧ x ≤ 0x7fffffff then some (.CpuSpecific x)
  else none

/-- `ProgramHeader::segment_type`: classify `p_type`. -/
def ProgramHeader.segment_type (p : ProgramHeader) : Option SegmentType :=
  SegmentType.from_integer p.p_type

end Elf

namespace Paging

/-- Modelled from the spec: `PhysAddr<T>` of the cpu crate (its module is
not under `src/`): a bare numeric physical address tagged with a phantom
type; exposes its raw `u64` via `as_u64`. -/
structure PhysAddr (α : Type) where
  addr : Nat
deriving Repr, DecidableEq

/-- `PhysAddr::as_u64`, the raw 64-bit address. -/
def PhysAddr.as_u64 {α : Type} (a : PhysAddr α) : Nat := a.addr

/-- Modelled from the spec: the null physical address used by
`PhysAddr::null()`. -/
def PhysAddr.null (α : Type) : PhysAddr α := ⟨0⟩

/-- Modelled from the spec: `PhysSlice<T>` of the cpu crate (module not
under `src/`): a physical address plus an element count, denoting a
contiguous run of physical memory. -/
structure PhysSlice (α : Type) where
  addr : Nat
  len : Nat
deriving Repr, DecidableEq

/-- Modelled from the spec: the null physical slice used by
`PhysSlice::null()`. -/
def PhysSlice.null (α : Type) : PhysSlice α := ⟨0, 0⟩

/-- Modelled from the spec: the `Megapage` zero-size marker type of
`cpu::paging` (module not under `src/`), tagging a slice of 2 MiB
large-page frames. -/
structure Megapage where
deriving Repr, DecidableEq

/-!
The four page-table entry variants are generated by the
`impl_pagelevel` macro of `src/libs/cpu/src/macros.rs`.  Each variant
is a `Cell<u64>`; construction is
`Self(Cell::new(flags.as_u64() | addr.as_u64()))` and read-back
(`Bits::as_u64`) returns the stored word.  The flag newtypes differ
only in which bits they name; their `as_u64` is the raw word, so the
entry operations are modelled directly on the raw 64-bit words.
-/

/-- `PML4Entry` generated by `impl_pagelevel` in `macros.rs`: a 64-bit
cell. -/
structure PML4Entry where
  cell : Nat
deriving Repr, DecidableEq

/-- `PML4Entry::new(addr, flags)`: stores `flags.as_u64() | addr.as_u64()`. -/
def PML4Entry.new (addr flags : Nat) : PML4Entry := ⟨flags ||| addr⟩

/-- `Bits::as_u64` for `PML4Entry`: the stored word. -/
def PML4Entry.as_u64 (e : PML4Entry) : Nat := e.cell

/-- `Entry::ZEROED` for `PML4Entry`. -/
def PML4Entry.ZEROED : PML4Entry := ⟨0⟩

/-- `PDPEntry` generated by `impl_pagelevel` in `macros.rs`. -/
structure PDPEntry where
  cell : Nat
deriving Repr, DecidableEq

/-- `PDPEntry::new(addr, flags)`: stores `flags.as_u64() | addr.as_u64()`. -/
def PDPEntry.new (addr flags : Nat) : PDPEntry := ⟨flags ||| addr⟩

/-- `Bits::as_u64` for `PDPEntry`: the stored word. -/
def PDPEntry.as_u64 (e : PDPEntry) : Nat := e.cell

/-- `Entry::ZEROED` for `PDPEntry`. -/
def PDPEntry.ZEROED : PDPEntry := ⟨0⟩

/-- `PDEntry` generated by `impl_pagelevel` in `macros.rs`. -/
structure PDEntry where
  cell : Nat
deriving Repr, DecidableEq

/-- `PDEntry::new(addr, flags)`: stores `flags.as_u64() | addr.as_u64()`. -/
def PDEntry.new (addr flags : Nat) : PDEntry := ⟨flags ||| addr⟩

/-- `Bits::as_u64` for `PDEntry`: the stored word. -/
def PDEntry.as_u64 (e : PDEntry) : Nat := e.cell

/-- `Entry::ZEROED` for `PDEntry`. -/
def PDEntry.ZEROED : PDEntry := ⟨0⟩

/-- `PTEntry` generated by `impl_pagelevel` in `macros.rs`. -/
structure PTEntry where
  cell : Nat
deriving Repr, DecidableEq

/-- `PTEntry::new(addr, flags)`: stores `flags.as_u64() | addr.as_u64()`. -/
def PTEntry.new (addr flags : Nat) : PTEntry := ⟨flags ||| addr⟩

/-- `Bits::as_u64` for `PTEntry`: the stored word. -/
def PTEntry.as_u64 (e : PTEntry) : Nat := e.cell

/-- `Entry::ZEROED` for `PTEntry`. -/
def PTEntry.ZEROED : PTEntry := ⟨0⟩

/-- Modelled from the spec: `paging::Table<E>` of the cpu crate (module
not under `src/`): a 512-element page-aligned array of one entry type. -/
structure Table (E : Type) where
  entries : List E
deriving Repr, DecidableEq

/-- Modelled from the spec: `Table::new()`, the zero-initialized
512-entry table (entries pre-zeroed to the cleared value). -/
def Table.new (E : Type) (zeroed : E) : Table E := ⟨List.replicate 512 zeroed⟩

/-- An entry word has its present bit (bit 0) set. -/
def presentBit (w : Nat) : Bool := w % 2 == 1

/-- Number of present entries in a `Table` of `PDEntry`. -/
def Table.presentCountPD (t : Table PDEntry) : Nat :=
  (t.entries.filter (fun e => presentBit e.cell)).length

/-- Number of present entries in a `Table` of `PTEntry`. -/
def Table.presentCountPT (t : Table PTEntry) : Nat :=
  (t.entries.filter (fun e => presentBit e.cell)).length

end Paging

namespace Boot

open Paging

/-- Modelled from the spec: a firmware memory-region descriptor
(`uefi::table::boot::MemoryDescriptor`, an external collaborator):
base, page count and region type. -/
structure MemoryDescriptor where
  base : Nat
  pages : Nat
  typ : Nat
deriving Repr, DecidableEq

/-- Modelled from the spec: the firmware runtime-services handle
(`uefi::table::SystemTable<Runtime>`, an external collaborator), treated
as an abstract token. -/
structure SystemTable where
  raw : Nat
deriving Repr, DecidableEq

/-- Modelled from the spec: the legacy serial-port handle
(`uart_16550::SerialPort`, an external collaborator), treated as an
abstract token. -/
structure SerialPort where
  raw : Nat
deriving Repr, DecidableEq

/-- The `Bootinfo` control block of `src/libs/bootinfo/src/lib.rs`:
the four page tables, the self physical address (`this`), the kernel
image slice, the scratch buffer, the bounded firmware memory map
(`ArrayVec<[MemoryDescriptor; 192]>`, modelled as a list), and the two
optional pre-transition handles. -/
structure Bootinfo where
  paging_root : Table PML4Entry
  pdp : Table PDPEntry
  pd : Table PDEntry
  page_table : Table PTEntry
  this : Nat
  kernel_pslice : PhysSlice Nat
  buf : List Nat
  uefi_meminfo : List MemoryDescriptor
  uefi_systable : Option SystemTable
  serial : Option SerialPort
deriving Repr, DecidableEq

/-- `Bootinfo::new()`: zeroed tables, null self address and kernel
slice, zeroed buffer, empty memory map, no handles. -/
def Bootinfo.new : Bootinfo where
  paging_root := Table.new PML4Entry PML4Entry.ZEROED
  pdp := Table.new PDPEntry PDPEntry.ZEROED
  pd := Table.new PDEntry PDEntry.ZEROED
  page_table := Table.new PTEntry PTEntry.ZEROED
  this := 0
  kernel_pslice := ⟨0, 0⟩
  buf := List.replicate 8192 0
  uefi_meminfo := []
  uefi_systable := none
  serial := none

/-- `Bootinfo::map_kernel` of `src/libs/bootinfo/src/lib.rs`.  The
source body binds `base = 0xffff_ffff_c000_0000u64` and contains
nothing else besides a comment stating the intended mapping; it
performs no writes and returns unit, so the control block is returned
unchanged. -/
def Bootinfo.map_kernel (b : Bootinfo) (text rodata data : PhysSlice Megapage) :
    Bootinfo :=
  let base : Nat := 0xffffffffc0000000
  b

/-- Possible completions of the trampoline call, for stating how
`page_fault_jump_trick` (return type `!`) can end: a normal return to
the caller, a panic (the `no_std` panic path halts the boot), or the
jump into the kernel entry point. -/
inductive TrampolineOutcome
  | returnedNormally
  | panicked
  | jumpedToKernel (entry : Nat)
deriving Repr, DecidableEq

/-- `Bootinfo::page_fault_jump_trick` of `src/libs/bootinfo/src/lib.rs`:
the body binds `page_fault_vector_number = 14` and then executes
`unreachable!()`, which panics unconditionally; the declared return
type `!` admits no normal return. -/
def Bootinfo.page_fault_jump_trick (entry : Nat) : TrampolineOutcome :=
  let page_fault_vector_number : Nat := 14
  .panicked

end Boot

/-! ## Theorems -/

/-- Helper: "zero means absent" decoding is injective, so absence is
distinguished from every legitimate value without ambiguity. -/
theorem decodeOptionNonZeroU64_injective (v w : Nat)
    (h : Elf.decodeOptionNonZeroU64 v = Elf.decodeOptionNonZeroU64 w) : v = w := by
  unfold Elf.decodeOptionNonZeroU64 at h
  by_cases hv : v = 0 <;> by_cases hw : w = 0 <;> simp [hv, hw] at h <;> omega

/-- C2: for every page-table entry variant (PML4, PDP, PD, PT) and every
level-appropriately aligned 64-bit physical address `A` and 64-bit flag
set `F`, constructing an entry from `(A, F)` and reading it back as a
flat 64-bit value yields exactly the bitwise-or `A ||| F`. -/
theorem entry_roundtrip_is_bitwise_or (A F : Nat)
    (hA : A < 2 ^ 64) (hF : F < 2 ^ 64) (halign : A % 4096 = 0) :
    (Paging.PML4Entry.new A F).as_u64 = A ||| F ∧
    (Paging.PDPEntry.new A F).as_u64 = A ||| F ∧
    (Paging.PDEntry.new A F).as_u64 = A ||| F ∧
    (Paging.PTEntry.new A F).as_u64 = A ||| F := by
  refine ⟨?_, ?_, ?_, ?_⟩ <;>
    simp [Paging.PML4Entry.new, Paging.PML4Entry.as_u64,
          Paging.PDPEntry.new, Paging.PDPEntry.as_u64,
          Paging.PDEntry.new, Paging.PDEntry.as_u64,
          Paging.PTEntry.new, Paging.PTEntry.as_u64, Nat.lor_comm]

/-- Witness for C2 at a concrete 2 MiB-aligned address and the
present+writable+large flag word 0x83. -/
theorem entry_roundtrip_is_bitwise_or_witness :
    (Paging.PDEntry.new 0x40000000 0x83).as_u64 = 0x40000000 ||| 0x83 :=
  (entry_roundtrip_is_bitwise_or 0x40000000 0x83 (by decide) (by decide)
    (by decide)).2.2.1

/-- C5: the entry-point, program-header-offset and section-header-offset
fields of the ELF64 header decode as "zero means absent": a raw value 0
decodes to `none`, any nonzero `v` decodes to `some v`, and the
decoding is unambiguous (injective). -/
theorem header_zero_means_absent_fields (e p s : Nat) :
    (e = 0 → (Elf.decodeAddressFields e p s).1 = none) ∧
    (e ≠ 0 → (Elf.decodeAddressFields e p s).1 = some e) ∧
    (p = 0 → (Elf.decodeAddressFields e p s).2.1 = none) ∧
    (p ≠ 0 → (Elf.decodeAddressFields e p s).2.1 = some p) ∧
    (s = 0 → (Elf.decodeAddressFields e p s).2.2 = none) ∧
    (s ≠ 0 → (Elf.decodeAddressFields e p s).2.2 = some s) ∧
    (∀ v w : Nat,
      Elf.decodeOptionNonZeroU64 v = Elf.decodeOptionNonZeroU64 w → v = w) := by
  refine ⟨?_, ?_, ?_, ?_, ?_, ?_, decodeOptionNonZeroU64_injective⟩ <;>
    intro h <;>
    simp [Elf.decodeAddressFields, Elf.decodeOptionNonZeroU64, h]

/-- Witness for C5: raw `e_entry = 0` is absent, raw
`e_phoff = 64` is present with value 64. -/
theorem header_zero_means_absent_fields_witness :
    (Elf.decodeAddressFields 0 64 0).1 = none ∧
    (Elf.decodeAddressFields 0 64 0).2.1 = some 64 :=
  ⟨(header_zero_means_absent_fields 0 64 0).1 rfl,
   (header_zero_means_absent_fields 0 64 0).2.2.2.1 (by decide)⟩

/-- C6: `SegmentType::from_integer` classifies tags 0..7 as Null, Load,
Dynamic, Interpreter, Note, SharedLib, ProgramHeader,
ThreadLocalStorage, every tag in `0x60000000..=0x6fffffff` as
OS-specific carrying the raw value, and every tag in
`0x70000000..=0x7fffffff` as CPU-specific carrying the raw value. -/
theorem segment_type_classification :
    Elf.SegmentType.from_integer 0 = some .Null ∧
    Elf.SegmentType.from_integer 1 = some .Load ∧
    Elf.SegmentType.from_integer 2 = some .Dynamic ∧
    Elf.SegmentType.from_integer 3 = some .Interpreter ∧
    Elf.SegmentType.from_integer 4 = some .Note ∧
    Elf.SegmentType.from_integer 5 = some .SharedLib ∧
    Elf.SegmentType.from_integer 6 = some .ProgramHeader ∧
    Elf.SegmentType.from_integer 7 = some .ThreadLocalStorage ∧
    (∀ x : Nat, 0x60000000 ≤ x → x ≤ 0x6fffffff →
      Elf.SegmentType.from_integer x = some (.OsSpecific x)) ∧
    (∀ x : Nat, 0x70000000 ≤ x → x ≤ 0x7fffffff →
      Elf.SegmentType.from_integer x = some (.CpuSpecific x)) := by
  refine ⟨rfl, rfl, rfl, rfl, rfl, rfl, rfl, rfl, ?_, ?_⟩ <;> intro x hlo hhi
  · have ne0 : x ≠ 0 := by omega
    have ne1 : x ≠ 1 := by omega
    have ne2 : x ≠ 2 := by omega
    have ne3 : x ≠ 3 := by omega
    have ne4 : x ≠ 4 := by omega
    have ne5 : x ≠ 5 := by omega
    have ne6 : x ≠ 6 := by omega
    have ne7 : x ≠ 7 := by omega
    simp [Elf.SegmentType.from_integer,
      ne0, ne1, ne2, ne3, ne4, ne5, ne6, ne7, hlo, hhi]
  · have ne0 : x ≠ 0 := by omega
    have ne1 : x ≠ 1 := by omega
    have ne2 : x ≠ 2 := by omega
    have ne3 : x ≠ 3 := by omega
    have ne4 : x ≠ 4 := by omega
    have ne5 : x ≠ 5 := by omega
    have ne6 : x ≠ 6 := by omega
    have ne7 : x ≠ 7 := by omega
    have nos : ¬ x ≤ 0x6fffffff := by omega
    simp [Elf.SegmentType.from_integer,
      ne0, ne1, ne2, ne3, ne4, ne5, ne6, ne7, nos, hlo, hhi]

/-- Witness for C6: a tag inside the OS-specific range classifies as
`OsSpecific` carrying the raw value. -/
theorem segment_type_classification_witness :
    Elf.SegmentType.from_integer 0x60001234 = some (.OsSpecific 0x60001234) :=
  segment_type_classification.2.2.2.2.2.2.2.2.1 0x60001234 (by decide) (by decide)

/-- C7: decoding `e_machine` never hard-fails: each known value yields
its `Machine` classification (62 is x86-64) and every unrecognized
value merely yields `none`, the header staying intact for the caller. -/
theorem machine_decoding_no_hard_failure (h : Elf.Header) :
    (h.e_machine = 0 → h.machine = some .None) ∧
    (h.e_machine = 3 → h.machine = some .X86) ∧
    (h.e_machine = 20 → h.machine = some .PowerPC) ∧
    (h.e_machine = 21 → h.machine = some .Power64) ∧
    (h.e_machine = 40 → h.machine = some .Arm) ∧
    (h.e_machine = 62 → h.machine = some .X64) ∧
    (h.e_machine = 183 → h.machine = some .AArch64) ∧
    (h.e_machine = 224 → h.machine = some .AmdGpu) ∧
    (h.e_machine = 243 → h.machine = some .RiscV) ∧
    (h.e_machine ∉ ([0, 3, 20, 21, 40, 62, 183, 224, 243] : List Nat) →
      h.machine = none) := by
  refine ⟨?_, ?_, ?_, ?_, ?_, ?_, ?_, ?_, ?_, ?_⟩ <;> intro hm
  case _ => simp [Elf.Header.machine, hm]
  case _ => simp [Elf.Header.machine, hm]
  case _ => simp [Elf.Header.machine, hm]
  case _ => simp [Elf.Header.machine, hm]
  case _ => simp [Elf.Header.machine, hm]
  case _ => simp [Elf.Header.machine, hm]
  case _ => simp [Elf.Header.machine, hm]
  case _ => simp [Elf.Header.machine, hm]
  case _ => simp [Elf.Header.machine, hm]
  case _ =>
    simp only [List.mem_cons, List.not_mem_nil, or_false] at hm
    push_neg at hm
    obtain ⟨h0, h3, h20, h21, h40, h62, h183, h224, h243⟩ := hm
    simp [Elf.Header.machine, h0, h3, h20, h21, h40, h62, h183, h224, h243]

/-- Witness for C7: a header with `e_machine = 62` classifies as x86-64
and one with the unassigned value 1000 decodes to `none`. -/
theorem machine_decoding_no_hard_failure_witness :
    Elf.Header.machine ⟨⟨[0x7f, 69, 76, 70], 2, 1, 1, 0, 0, [0, 0, 0, 0, 0, 0, 0]⟩,
      2, 62, 1, some 0x1000, some 64, none, 0, 64, 56, 3, 0, 0, 0⟩ = some .X64 ∧
    Elf.Header.machine ⟨⟨[0x7f, 69, 76, 70], 2, 1, 1, 0, 0, [0, 0, 0, 0, 0, 0, 0]⟩,
      2, 1000, 1, some 0x1000, some 64, none, 0, 64, 56, 3, 0, 0, 0⟩ = none :=
  ⟨(machine_decoding_no_hard_failure _).2.2.2.2.2.1 rfl,
   (machine_decoding_no_hard_failure _).2.2.2.2.2.2.2.2.2 (by decide)⟩

/-- Helper: testing `(y & 1) == 1` is testing bit 0 of `y`. -/
theorem and_one_beq_one_eq_testBit_zero (y : Nat) :
    (y &&& 1 == 1) = y.testBit 0 := by
  rw [Nat.and_one_is_mod, Nat.testBit_zero]
  rcases Nat.mod_two_eq_zero_or_one y with h | h <;> simp [h]

/-- C9: the program header reads its R/W/X permission bits from
flag-word bits 2, 1 and 0 respectively, and `os_specific_flags` and
`cpu_specific_flags` each yield an 8-bit value whose bit `i` is bit
`20 + i` (resp. `28 + i`) of the 32-bit flags word. -/
theorem program_header_flag_bits (p : Elf.ProgramHeader) :
    (p.is_executable = p.p_flags.testBit 0) ∧
    (p.is_writable = p.p_flags.testBit 1) ∧
    (p.is_readable = p.p_flags.testBit 2) ∧
    p.os_specific_flags < 2 ^ 8 ∧
    (∀ i : Nat, i < 8 →
      p.os_specific_flags.testBit i = p.p_flags.testBit (20 + i)) ∧
    p.cpu_specific_flags < 2 ^ 8 ∧
    (∀ i : Nat, i < 8 →
      p.cpu_specific_flags.testBit i = p.p_flags.testBit (28 + i)) := by
  refine ⟨?_, ?_, ?_, ?_, ?_, ?_, ?_⟩
  · unfold Elf.ProgramHeader.is_executable
    rw [and_one_beq_one_eq_testBit_zero, Nat.testBit_shiftRight]
  · unfold Elf.ProgramHeader.is_writable
    rw [and_one_beq_one_eq_testBit_zero, Nat.testBit_shiftRight]
  · unfold Elf.ProgramHeader.is_readable
    rw [and_one_beq_one_eq_testBit_zero, Nat.testBit_shiftRight]
  · exact Nat.mod_lt _ (by decide)
  · intro i hi
    unfold Elf.ProgramHeader.os_specific_flags
    rw [Nat.testBit_mod_two_pow, Nat.testBit_shiftRight]
    simp [hi]
  · exact Nat.mod_lt _ (by decide)
  · intro i hi
    unfold Elf.ProgramHeader.cpu_specific_flags
    rw [Nat.testBit_mod_two_pow, Nat.testBit_shiftRight]
    simp [hi]

/-- Witness for C9 at the flags word 0x30500007 (R+W+X, OS-specific
field 0x05, CPU-specific field 0x03). -/
theorem program_header_flag_bits_witness :
    (Elf.ProgramHeader.is_readable ⟨1, 0x30500007, 0, 0, 0, 0, 0, 0⟩ =
      Nat.testBit 0x30500007 2) ∧
    (Elf.ProgramHeader.os_specific_flags ⟨1, 0x30500007, 0, 0, 0, 0, 0, 0⟩).testBit 0 =
      Nat.testBit 0x30500007 20 :=
  ⟨(program_header_flag_bits ⟨1, 0x30500007, 0, 0, 0, 0, 0, 0⟩).2.2.1,
   (program_header_flag_bits ⟨1, 0x30500007, 0, 0, 0, 0, 0, 0⟩).2.2.2.2.1 0
     (by decide)⟩

/-- C8: the trampoline call never completes normally: for every
entry-point argument its outcome is never a normal return — in the
source it either jumps into the kernel or halts (the body
unconditionally panics). -/
theorem page_fault_jump_trick_never_returns (entry : Nat) :
    Boot.Bootinfo.page_fault_jump_trick entry ≠ .returnedNormally ∧
    (Boot.Bootinfo.page_fault_jump_trick entry = .jumpedToKernel entry ∨
      Boot.Bootinfo.page_fault_jump_trick entry = .panicked) :=
  ⟨by simp [Boot.Bootinfo.page_fault_jump_trick], Or.inr rfl⟩

/-- Witness for C8 at the concrete entry point 0xffffffffc0000000. -/
theorem page_fault_jump_trick_never_returns_witness :
    Boot.Bootinfo.page_fault_jump_trick 0xffffffffc0000000 ≠ .returnedNormally :=
  (page_fault_jump_trick_never_returns 0xffffffffc0000000).1

/-- C4: mapping the same (ranges, permissions) twice from the same
starting state yields the same final control-block state as mapping
once.  This holds degenerately: `map_kernel` is an unimplemented stub
that leaves the state untouched. -/
theorem map_kernel_idempotent (b : Boot.Bootinfo)
    (text rodata data : Paging.PhysSlice Paging.Megapage) :
    ((b.map_kernel text rodata data).map_kernel text rodata data) =
      b.map_kernel text rodata data := rfl

/-- C10: `map_kernel` leaves every field of the `Bootinfo` control
block unchanged — all four page tables, the self address, the kernel
slice, the scratch buffer, the firmware memory map and both handles. -/
theorem map_kernel_preserves_all_fields (b : Boot.Bootinfo)
    (text rodata data : Paging.PhysSlice Paging.Megapage) :
    (b.map_kernel text rodata data).paging_root = b.paging_root ∧
    (b.map_kernel text rodata data).pdp = b.pdp ∧
    (b.map_kernel text rodata data).pd = b.pd ∧
    (b.map_kernel text rodata data).page_table = b.page_table ∧
    (b.map_kernel text rodata data).this = b.this ∧
    (b.map_kernel text rodata data).kernel_pslice = b.kernel_pslice ∧
    (b.map_kernel text rodata data).buf = b.buf ∧
    (b.map_kernel text rodata data).uefi_meminfo = b.uefi_meminfo ∧
    (b.map_kernel text rodata data).uefi_systable = b.uefi_systable ∧
    (b.map_kernel text rodata data).serial = b.serial :=
  ⟨rfl, rfl, rfl, rfl, rfl, rfl, rfl, rfl, rfl, rfl⟩

set_option maxRecDepth 8192 in
/-- C1 (failing input): on the 3-megapage kernel image
(text 0x200000, rodata 0x400000, data 0x600000, one 2 MiB page each)
and an identity-mapped control block at physical address 0x7000000,
`map_kernel` installs no mappings at all: the pd table keeps zero
present entries (the claim requires exactly three) and the page table
keeps zero present entries (the claim requires entries covering the
control block's page). -/
theorem map_kernel_stub_installs_no_mappings :
    (({ Boot.Bootinfo.new with this := 0x7000000 }.map_kernel
        ⟨0x200000, 1⟩ ⟨0x400000, 1⟩ ⟨0x600000, 1⟩).pd.presentCountPD = 0) ∧
    (({ Boot.Bootinfo.new with this := 0x7000000 }.map_kernel
        ⟨0x200000, 1⟩ ⟨0x400000, 1⟩ ⟨0x600000, 1⟩).page_table.presentCountPT = 0) :=
  ⟨rfl, rfl⟩

/-- C3 (failing input): mapping three fully overlapping ranges with
conflicting permissions (text R+X, rodata R, data R+W all on the same
2 MiB frame 0x200000) is not rejected: `map_kernel` returns unit (no
error channel exists) and leaves the state unchanged, so the conflict
is neither reported nor resolved. -/
theorem map_kernel_stub_silently_ignores_conflict :
    ({ Boot.Bootinfo.new with this := 0x7000000 }.map_kernel
        ⟨0x200000, 1⟩ ⟨0x200000, 1⟩ ⟨0x200000, 1⟩) =
      { Boot.Bootinfo.new with this := 0x7000000 } := rfl

